import Mathlib

/-!
Verification of the trashmap ephemeral game-server orchestrator

A shallow embedding of `src/main.rs` (the trashmap orchestrator) and proofs
about it.  Strings model byte sequences; the registry (`HashMap<Uuid,
ServerProcess>` behind a mutex) is modelled as an association list with
unique keys; handler side effects (filesystem writes, process spawns, TCP
commands, event publications) are recorded as an explicit effect list in the
order the code performs them.  Filesystem and TCP operations are modelled as
succeeding; the readiness handshake's environment (the child's stdout) is an
explicit parameter.
-/

namespace Trashmap

/-- Instance identifiers (`uuid::Uuid` in the source); modelled as `Nat`. -/
abbrev Uuid := Nat

/-- Rust `struct ServerProcess` from the source.  The `tcp_stream` field (the live
administration connection) is represented implicitly: commands sent on it are
recorded as `Effect.sendCmd` effects keyed by the instance id. -/
structure ServerProcess where
  server_path : String
  map_path : String
  port : Nat
deriving DecidableEq, Repr

/-- Rust `struct ServerEvent` from the source. -/
structure ServerEvent where
  server_id : Uuid
  event : String
  data : String
deriving DecidableEq, Repr

/-- Rust `struct Config` from the source (`http_port` is transport-level and not
needed by any modelled operation). -/
structure Config where
  executable_path : String
  port_range : Nat × Nat
  public_address : String
deriving DecidableEq, Repr

/-! Escaping (`fn escape_ddnet`)

`escape_ddnet` in the source is
`str.replace(r"\", r"\\").replace("\"", "\\\"").replace("\n", "").replace("\r", "")`.
Each pattern is a single character, so each `replace` is exactly a
character-by-character substitution; we model strings as `List Char` and the
composition of the four passes literally. -/

/-- One `str::replace` pass with a single-character pattern `c` and
replacement `repl`. -/
def replaceChar (c : Char) (repl : List Char) : List Char → List Char
  | [] => []
  | x :: xs => (if x = c then repl else [x]) ++ replaceChar c repl xs

/-- Rust `fn escape_ddnet`: double backslashes, then backslash-escape double
quotes, then strip LF, then strip CR — in the source's order. -/
def escape_ddnet (s : List Char) : List Char :=
  replaceChar '\r' []
    (replaceChar '\n' []
      (replaceChar '"' ['\\', '"']
        (replaceChar '\\' ['\\', '\\'] s)))

/-- Function `escape_ddnet` on `String`, used where the handlers interpolate
user-supplied strings into commands and configuration files. -/
def escapeString (s : String) : String := String.mk (escape_ddnet s.data)

/-- Modelled from the spec: unescaping "by the target line format", i.e.
undoing backslash-doubling and quote-escaping — a backslash makes the next
character literal. -/
def unescape_ddnet : List Char → List Char
  | [] => []
  | [c] => [c]
  | c1 :: c2 :: rest =>
    if c1 = '\\' then c2 :: unescape_ddnet rest
    else c1 :: unescape_ddnet (c2 :: rest)

/-- Removing the CR and LF characters of a string (what the spec means by
"the original text except for the stripped line breaks"). -/
def stripCRLF (s : List Char) : List Char :=
  s.filter fun c => !(c == '\n' || c == '\r')

/-! The Instance Registry

`processes: Arc<Mutex<HashMap<Uuid, ServerProcess>>>` is modelled as an
association list with unique keys ("the Registry"); every handler runs its
whole body inside the mutex, so each handler is one atomic function from
registry to registry. -/

/-- The Registry: contents of the `processes` map. -/
abbrev Registry := List (Uuid × ServerProcess)

/-- Models `HashMap::get` on the Registry. -/
def regLookup : Registry → Uuid → Option ServerProcess
  | [], _ => none
  | (k, p) :: rest, id => if k = id then some p else regLookup rest id

/-- The `process.map_path = map_path` mutation through `get_mut`: update the
tracked map path of the entry with the given id (all other fields and all
other entries unchanged). -/
def regSetMapPath (reg : Registry) (id : Uuid) (mp : String) : Registry :=
  reg.map fun e => if e.1 = id then (e.1, { e.2 with map_path := mp }) else e

/-- Models `HashMap::remove`. -/
def regRemove (reg : Registry) (id : Uuid) : Registry :=
  reg.filter fun e => e.1 != id

/-- Models `processes.values().map(|p| p.port)`: the occupied ports. -/
def regPorts (reg : Registry) : List Nat :=
  reg.map fun e => e.2.port

/-! Filename sanitization (`update_map`, lines 204–211)

`Path::new(&query.map_filename).file_name()` takes the final normal path
component: directory components are stripped, and the result is `None` when
the path has no final normal component (empty path, or a path ending in
`..`).  `.strip_suffix(".map")` then demands the `.map` extension. -/

/-- Split a character list at `/` separators (`Path` component boundaries on
Unix). -/
def splitSlash : List Char → List (List Char)
  | [] => [[]]
  | c :: cs =>
    let r := splitSlash cs
    if c = '/' then [] :: r
    else (c :: r.headD []) :: r.tail

/-- Models `Path::file_name` for Unix paths: the last component after dropping
empty and `.` components; `none` when there is no such component or it is
`..`. -/
def fileName (s : String) : Option String :=
  let comps := (splitSlash s.data).filter fun c => !(c == [] || c == ['.'])
  match comps.getLast? with
  | none => none
  | some last => if last = ['.', '.'] then none else some (String.mk last)

/-- Models `str::strip_suffix(".map")`. -/
def stripMapSuffix (s : String) : Option String :=
  match s.data.reverse with
  | 'p' :: 'a' :: 'm' :: '.' :: rest => some (String.mk rest.reverse)
  | _ => none

/-- Models `PathBuf::join` for the bare relative components the handlers use. -/
def pathJoin (a b : String) : String := a ++ "/" ++ b

/-- The instance directory `data_dir/<uuid>` (line 212–215). -/
def serverPathOf (data_dir : String) (id : Uuid) : String :=
  pathJoin data_dir (toString id)

/-- The resolved map file path `data_dir/<uuid>/maps/<filename>` (line 216). -/
def mapPathOf (data_dir : String) (id : Uuid) (map_filename : String) : String :=
  pathJoin (pathJoin (serverPathOf data_dir id) "maps") map_filename

/-! Port allocation (`update_map`, lines 235–239) -/

/-- The port allocator: the first port of `lo..=hi` not in `occupied`
(`(range).filter(|p| !occupied.contains(p)).next()`). -/
def allocatePort (lo hi : Nat) (occupied : List Nat) : Option Nat :=
  (List.range' lo (hi + 1 - lo)).find? fun p => !occupied.contains p

/-! Readiness handshake (`update_map`, lines 328–337) -/

/-- How reading the child's stdout ends when no more lines arrive in time:
either the 1-second deadline elapses, or the stream ends because the process
exited. -/
inductive StreamEnd where
  | deadline
  | eof
deriving DecidableEq, Repr

/-- The environment of one spawn: the stdout lines readable before the
readiness deadline, and what ends the stream after them. -/
structure SpawnEnv where
  lines : List String
  ending : StreamEnd
deriving DecidableEq, Repr

def listStartsWith : List Char → List Char → Bool
  | [], _ => true
  | _ :: _, [] => false
  | p :: ps, c :: cs => p == c && listStartsWith ps cs

def listContainsSeq (pat : List Char) : List Char → Bool
  | [] => pat.isEmpty
  | c :: cs => listStartsWith pat (c :: cs) || listContainsSeq pat cs

/-- The readiness marker scanned for on the child's stdout. -/
def readinessMarker : String := "econ: bound to 127.0.0.1"

/-- Models `line.contains("econ: bound to 127.0.0.1")`. -/
def containsMarker (l : String) : Bool :=
  listContainsSeq readinessMarker.data l.data

/-- The error message reported when the readiness loop fails: the elapsed
timeout's message, or the message attached to a closed stdout. -/
def startupErrorMsg : StreamEnd → String
  | .deadline => "deadline has elapsed"
  | .eof => "The server process stopped unexpectedly"

/-- The readiness loop: read lines until one contains the marker; error out
when the deadline elapses or the stream ends first. -/
def handshake : List String → StreamEnd → Except String Unit
  | [], .deadline => .error (startupErrorMsg .deadline)
  | [], .eof => .error (startupErrorMsg .eof)
  | l :: ls, e => if containsMarker l then .ok () else handshake ls e

/-! Handler effects and results -/

/-- The observable side effects of the handlers and background routines, in
program order.  `sendCmd` is a write on the administration TCP connection of
the instance with the given id. -/
inductive Effect where
  | createDirAll (path : String)
  | writeFile (path : String) (contents : String)
  | removeFile (path : String)
  | removeDirAll (path : String)
  | spawnProcess (exe : String) (workdir : String)
  | spawnReaper (id : Uuid) (server_path : String)
  | tcpConnect (port : Nat)
  | sendCmd (id : Uuid) (cmd : String)
  | publish (ev : ServerEvent)
  | spawnTimer (id : Uuid)
  | exitProcess
deriving DecidableEq, Repr

/-- HTTP-level outcome of a handler (`StatusCode` or `AppError`). -/
inductive Outcome where
  | created
  | accepted
  | ok
  | error (msg : String)
deriving DecidableEq, Repr

/-- Number of occurrences of an effect in an effect list. -/
def countEffect (effs : List Effect) (e : Effect) : Nat :=
  (effs.filter fun x => x == e).length

/-! The `update_map` handler (lines 199–383) -/

/-- The `access_level` block of `autoexec.cfg` (lines 261–297). -/
def accessLevelLines : String :=
  "access_level totele 2\naccess_level totelecp 2\naccess_level tele 2\n" ++
  "access_level addweapon 2\naccess_level removeweapon 2\naccess_level shotgun 2\n" ++
  "access_level grenade 2\naccess_level laser 2\naccess_level rifle 2\n" ++
  "access_level jetpack 2\naccess_level setjumps 2\naccess_level weapons 2\n" ++
  "access_level unshotgun 2\naccess_level ungrenade 2\naccess_level unlaser 2\n" ++
  "access_level unrifle 2\naccess_level unjetpack 2\naccess_level unweapons 2\n" ++
  "access_level ninja 2\naccess_level unninja 2\naccess_level invincible 2\n" ++
  "access_level endless_hook 2\naccess_level unendless_hook 2\naccess_level solo 2\n" ++
  "access_level unsolo 2\naccess_level freeze 2\naccess_level unfreeze 2\n" ++
  "access_level deep 2\naccess_level undeep 2\naccess_level livefreeze 2\n" ++
  "access_level unlivefreeze 2\naccess_level left 2\naccess_level right 2\n" ++
  "access_level up 2\naccess_level down 2\naccess_level move 2\naccess_level move_raw 2\n"

/-- The generated `autoexec.cfg` contents (lines 245–301). -/
def autoexecContent (port : Nat) (map_name server_name server_password : String) : String :=
  "sv_port " ++ toString port ++ "\n" ++
  "sv_map \"" ++ escapeString map_name ++ "\"\n" ++
  "sv_name \"" ++ escapeString server_name ++ "\"\n" ++
  "password \"" ++ escapeString server_password ++ "\"\n" ++
  "ec_port " ++ toString port ++ "\n" ++
  "ec_bindaddr \"127.0.0.1\"\n" ++
  "ec_password \"open sesame\"\n" ++
  "ec_output_level -3\n" ++
  "sv_motd \"Use rcon password \\\"test\\\" or /practice for testing. Instead of \\\"super\\\" use \\\"invincible\\\" to toggle invincibility.\"\n" ++
  "sv_test_cmds 1\n" ++
  "sv_rescue 1\n" ++
  "sv_rcon_helper_password \"test\"\n" ++
  "sv_tele_others_auth_level 3\n" ++
  accessLevelLines

/-- Rust `struct UpdateMapQuery`. -/
structure UpdateMapQuery where
  server_id : Uuid
  map_filename : String
  server_name : String
  server_password : String
deriving DecidableEq, Repr

/-- The effects of the creation path up to and including spawning the child
process and its exit reaper (lines 241–326): these happen before the
readiness handshake, hence also on the handshake-failure path. -/
def launchEffects (config : Config) (data_dir : String) (query : UpdateMapQuery)
    (map_bytes map_name map_filename : String) (port : Nat) : List Effect :=
  [.createDirAll (pathJoin (serverPathOf data_dir query.server_id) "maps"),
   .writeFile (mapPathOf data_dir query.server_id map_filename) map_bytes,
   .writeFile (pathJoin (serverPathOf data_dir query.server_id) "storage.cfg")
     "add_path $CURRENTDIR\n",
   .writeFile (pathJoin (serverPathOf data_dir query.server_id) "autoexec.cfg")
     (autoexecContent port map_name query.server_name query.server_password),
   .spawnProcess config.executable_path (serverPathOf data_dir query.server_id),
   .spawnReaper query.server_id (serverPathOf data_dir query.server_id)]

/-- The effects of the creation path after a successful handshake (lines
339–379): administration connect and login, `online` event, idle timer. -/
def connectEffects (config : Config) (query : UpdateMapQuery) (port : Nat) : List Effect :=
  [.tcpConnect port,
   .sendCmd query.server_id "open sesame\n",
   .sendCmd query.server_id "stdout_output_level -3\n",
   .publish ⟨query.server_id, "online", config.public_address ++ ":" ++ toString port⟩,
   .spawnTimer query.server_id]

/-- Handler `async fn update_map`: the `POST /update-map` handler, run atomically
under the Registry mutex.  Returns the HTTP outcome, the registry after the
call, and the side effects in program order. -/
def update_map (config : Config) (data_dir : String) (reg : Registry)
    (query : UpdateMapQuery) (map_bytes : String) (env : SpawnEnv) :
    Outcome × Registry × List Effect :=
  match fileName query.map_filename with
  | none => (.error "Not a valid filename", reg, [])
  | some map_filename =>
    match stripMapSuffix map_filename with
    | none => (.error "The filename must end with the .map extension", reg, [])
    | some map_name =>
      let server_path := serverPathOf data_dir query.server_id
      let map_path := mapPathOf data_dir query.server_id map_filename
      match regLookup reg query.server_id with
      | some process =>
        if process.map_path = map_path then
          (.accepted, reg,
            [.writeFile map_path map_bytes,
             .sendCmd query.server_id "hot_reload\n"])
        else
          (.accepted, regSetMapPath reg query.server_id map_path,
            [.writeFile map_path map_bytes,
             .sendCmd query.server_id
               ("change_map \"" ++ escapeString map_name ++ "\"\n"),
             .removeFile process.map_path])
      | none =>
        match allocatePort config.port_range.1 config.port_range.2 (regPorts reg) with
        | none => (.error "Could not start the server because all ports are occupied", reg, [])
        | some port =>
          match handshake env.lines env.ending with
          | .error msg =>
            (.error msg, reg,
              launchEffects config data_dir query map_bytes map_name map_filename port)
          | .ok _ =>
            (.created,
             (query.server_id, ⟨server_path, map_path, port⟩) :: reg,
             launchEffects config data_dir query map_bytes map_name map_filename port ++
               connectEffects config query port)

/-! The other handlers and the background routines -/

/-- Handler `async fn update_settings`: the `GET /update-settings` handler.  The two
command lines are sent in a single `write_all`. -/
def update_settings (reg : Registry) (id : Uuid)
    (server_name server_password : String) : Outcome × List Effect :=
  match regLookup reg id with
  | some _ =>
    (.accepted,
      [.sendCmd id
        ("sv_name \"" ++ escapeString server_name ++ "\"\n" ++
         "password \"" ++ escapeString server_password ++ "\"\n")])
  | none => (.ok, [])

/-- The body of the exit-reaper task (lines 311–326), run once when the
child process terminates: remove the instance if still registered (and then
publish `stopped`), then delete the instance directory unconditionally. -/
def reaperBody (reg : Registry) (id : Uuid) (server_path : String) :
    Registry × List Effect :=
  match regLookup reg id with
  | some _ =>
    (regRemove reg id,
      [.publish ⟨id, "stopped", ""⟩, .removeDirAll server_path])
  | none => (reg, [.removeDirAll server_path])

/-- The body of the idle-timeout task (lines 360–379), run once 60 seconds
after creation: if the instance is still registered, send the
shutdown-when-empty command and publish the corresponding event. -/
def idleTimerBody (reg : Registry) (id : Uuid) : List Effect :=
  match regLookup reg id with
  | some _ =>
    [.sendCmd id "sv_shutdown_when_empty 1\n",
     .publish ⟨id, "shutdownwhenempty", ""⟩]
  | none => []

/-- The termination-signal handler (lines 100–115): under the Registry lock,
send `shutdown` to every instance and delete its directory, then exit the
orchestrator process. -/
def shutdownHandler (reg : Registry) : List Effect :=
  (reg.flatMap fun e => [.sendCmd e.1 "shutdown\n", .removeDirAll e.2.server_path]) ++
    [.exitProcess]

/-! The event stream (`server_events`, lines 128–155) -/

/-- One server-sent event as built by the handler. -/
structure SseMsg where
  event : String
  data : String
deriving DecidableEq, Repr

/-- The synthetic status event computed under the Registry lock at
subscription time. -/
def statusMsg (config : Config) (reg : Registry) (id : Uuid) : SseMsg :=
  match regLookup reg id with
  | some process => ⟨"online", config.public_address ++ ":" ++ toString process.port⟩
  | none => ⟨"offline", ""⟩

/-- Handler `async fn server_events`: the stream delivered to a subscriber, as a
function of the events subsequently published on the broadcast channel: the
synthetic status event first, then the published events filtered by id. -/
def server_events (config : Config) (reg : Registry) (id : Uuid)
    (published : List ServerEvent) : List SseMsg :=
  statusMsg config reg id ::
    ((published.filter fun m => m.server_id == id).map fun m => ⟨m.event, m.data⟩)

/-! Reachability of Registry states

The registry is mutated only by `update_map` (both branches) and by the
exit reaper; `update_settings`, the idle timer and the shutdown handler
never change it structurally (the idle timer only writes to a connection,
the shutdown handler exits the process). -/

/-- One registry-mutating step of the orchestrator. -/
inductive Step : Registry → Registry → Prop
  | updateMap (config : Config) (data_dir : String) (query : UpdateMapQuery)
      (map_bytes : String) (env : SpawnEnv) (reg : Registry) :
      Step reg (update_map config data_dir reg query map_bytes env).2.1
  | reap (id : Uuid) (server_path : String) (reg : Registry) :
      Step reg (reaperBody reg id server_path).1

/-- Registry states reachable from the empty initial registry. -/
inductive Reachable : Registry → Prop
  | init : Reachable []
  | step {reg reg' : Registry} : Reachable reg → Step reg reg' → Reachable reg'

/-- The Registry invariant: distinct ids, and distinct ports. -/
def RegInv (reg : Registry) : Prop :=
  (reg.map Prod.fst).Nodup ∧ (regPorts reg).Nodup

/-- A concrete configuration for the closed evaluations below. -/
def exConfig : Config := ⟨"/usr/bin/ddnet-sv", (8303, 8310), "example.org"⟩

/-- A spawn environment whose child prints the readiness marker in time. -/
def exEnvOk : SpawnEnv := ⟨["[econ]: econ: bound to 127.0.0.1:8303"], .deadline⟩

/-- A spawn environment whose child never prints the readiness marker
before the deadline elapses. -/
def exEnvFail : SpawnEnv := ⟨["[register]: refreshing ip addresses"], .deadline⟩

/-- A spawn environment whose child exits (stdout closes) before printing
the readiness marker. -/
def exEnvExit : SpawnEnv := ⟨[], .eof⟩

/-- A concrete creation query used in the concrete executions below. -/
def exQuery : UpdateMapQuery := ⟨1, "foo.map", "n", "p"⟩

/-! The task-level system model

The `Reachable` relation above abstracts the background tasks away and
tracks only the registry.  The background-task claims need more: each
`tokio::spawn`ed task is a distinct object that runs its body exactly once —
the idle timer 60 seconds after its spawn (line 362), the exit reaper when
its own child process terminates — and neither is ever cancelled when the
instance it was spawned for goes away.  `Sys` refines the model with the
clock, the pending task tokens, the effect trace, and two pieces of ghost
bookkeeping used only to state theorems: reaper tasks carry a spawn serial
number (task identity), and fired timers are recorded together with whether
an instance with their id was present at that moment. -/

/-- A pending idle-timeout task: the id it was spawned for and the time it
is due (its spawn time + 60 seconds). -/
structure TimerTask where
  id : Uuid
  due : Nat
deriving DecidableEq, Repr

/-- A pending exit-reaper task: a ghost spawn serial (task identity), and
the id and instance directory its closure captured. -/
structure ReaperTask where
  serial : Nat
  id : Uuid
  server_path : String
deriving DecidableEq, Repr

/-- Ghost record of one idle-timer firing: the task, and whether an instance
with its id was present in the Registry at that moment. -/
structure TimerFiring where
  task : TimerTask
  present : Bool
deriving DecidableEq, Repr

/-- The task-level system state: clock, Registry, pending timers and
reapers, ghost firing history, next reaper serial, and the effect trace. -/
structure Sys where
  now : Nat
  reg : Registry
  timers : List TimerTask
  reapers : List ReaperTask
  fired : List TimerFiring
  spawnCount : Nat
  trace : List Effect
deriving DecidableEq, Repr

/-- The initial system: empty registry, no tasks, time 0. -/
def initSys : Sys := ⟨0, [], [], [], [], 0, []⟩

/-- The timer tasks spawned by an effect list (one per `spawnTimer` effect),
due 60 seconds after the current time (`sleep(Duration::from_secs(60))`). -/
def spawnedTimers (effs : List Effect) (now : Nat) : List TimerTask :=
  match effs with
  | [] => []
  | .spawnTimer id :: rest => ⟨id, now + 60⟩ :: spawnedTimers rest now
  | _ :: rest => spawnedTimers rest now

/-- The reaper tasks spawned by an effect list (one per `spawnReaper`
effect), numbered from `base`. -/
def spawnedReapers (effs : List Effect) (base : Nat) : List ReaperTask :=
  match effs with
  | [] => []
  | .spawnReaper id sp :: rest => ⟨base, id, sp⟩ :: spawnedReapers rest (base + 1)
  | _ :: rest => spawnedReapers rest base

/-- One `update_map` request processed under the Registry lock: the
registry is replaced, the effects are appended to the trace, and the spawned
timer and reaper tasks become pending. -/
def sysRequest (config : Config) (data_dir : String) (query : UpdateMapQuery)
    (map_bytes : String) (env : SpawnEnv) (s : Sys) : Sys :=
  let r := update_map config data_dir s.reg query map_bytes env
  { now := s.now
    reg := r.2.1
    timers := s.timers ++ spawnedTimers r.2.2 s.now
    reapers := s.reapers ++ spawnedReapers r.2.2 s.spawnCount
    fired := s.fired
    spawnCount := s.spawnCount + (spawnedReapers r.2.2 s.spawnCount).length
    trace := s.trace ++ r.2.2 }

/-- One `update_settings` request: effects appended, nothing else changes. -/
def sysSettings (id : Uuid) (server_name server_password : String) (s : Sys) : Sys :=
  { s with trace := s.trace ++ (update_settings s.reg id server_name server_password).2 }

/-- Time passing. -/
def sysAdvance (d : Nat) (s : Sys) : Sys :=
  { s with now := s.now + d }

/-- A pending idle timer fires (at its due time): the token is consumed, its
body's effects are appended, and the firing is recorded with the presence of
its id at this moment. -/
def sysFireTimer (t : TimerTask) (s : Sys) : Sys :=
  { s with
    timers := s.timers.erase t
    fired := s.fired ++ [⟨t, (regLookup s.reg t.id).isSome⟩]
    trace := s.trace ++ idleTimerBody s.reg t.id }

/-- A pending exit reaper fires (its child process terminated): the token is
consumed and its body runs against the current Registry. -/
def sysFireReaper (r : ReaperTask) (s : Sys) : Sys :=
  { s with
    reg := (reaperBody s.reg r.id r.server_path).1
    reapers := s.reapers.erase r
    trace := s.trace ++ (reaperBody s.reg r.id r.server_path).2 }

/-- One step of the task-level system: a request is served, time passes, a
pending timer fires exactly at its due time, or a pending reaper fires when
its child exits (at any time — child lifetime is external). -/
inductive SysStep : Sys → Sys → Prop
  | request (config : Config) (data_dir : String) (query : UpdateMapQuery)
      (map_bytes : String) (env : SpawnEnv) (s : Sys) :
      SysStep s (sysRequest config data_dir query map_bytes env s)
  | settings (id : Uuid) (server_name server_password : String) (s : Sys) :
      SysStep s (sysSettings id server_name server_password s)
  | advance (d : Nat) (s : Sys) : SysStep s (sysAdvance d s)
  | fireTimer (t : TimerTask) (s : Sys) (hmem : t ∈ s.timers) (hdue : s.now = t.due) :
      SysStep s (sysFireTimer t s)
  | fireReaper (r : ReaperTask) (s : Sys) (hmem : r ∈ s.reapers) :
      SysStep s (sysFireReaper r s)

/-- Task-level system states reachable from the initial state. -/
inductive SysReachable : Sys → Prop
  | init : SysReachable initSys
  | step {s s' : Sys} : SysReachable s → SysStep s s' → SysReachable s'

/-! A concrete execution with a stale idle timer: instance id 1 is created
at time 0 (timer due 60); its process exits at time 10 and the reaper
removes it; the same id is re-created at time 20 (timer due 80); the first
creation's never-cancelled timer fires at 60 against the re-created
instance; the second creation's own timer fires at 80. -/

def c7s1 : Sys := sysRequest exConfig "data" exQuery "M" exEnvOk initSys
def c7s2 : Sys := sysAdvance 10 c7s1
def c7s3 : Sys := sysFireReaper ⟨0, 1, "data/1"⟩ c7s2
def c7s4 : Sys := sysAdvance 10 c7s3
def c7s5 : Sys := sysRequest exConfig "data" exQuery "M" exEnvOk c7s4
def c7s6 : Sys := sysAdvance 40 c7s5
def c7s7 : Sys := sysFireTimer ⟨1, 60⟩ c7s6
def c7s8 : Sys := sysAdvance 20 c7s7
def c7s9 : Sys := sysFireTimer ⟨1, 80⟩ c7s8

/-! A concrete execution with a stale exit reaper: the creation of id 1
fails its readiness handshake (the reaper task, serial 0, is already
spawned; nothing is registered); a second creation of the same id succeeds
(reaper serial 1); then the first, stale child exits and reaper serial 0
fires against the live re-created instance. -/

def c10s1 : Sys := sysRequest exConfig "data" exQuery "M" exEnvFail initSys
def c10s2 : Sys := sysRequest exConfig "data" exQuery "M" exEnvOk c10s1
def c10s3 : Sys := sysFireReaper ⟨0, 1, "data/1"⟩ c10s2

theorem replaceChar_append (c : Char) (r a b : List Char) :
    replaceChar c r (a ++ b) = replaceChar c r a ++ replaceChar c r b := by
  induction a with
  | nil => rfl
  | cons x xs ih => simp [replaceChar, ih]

theorem escape_ddnet_append (a b : List Char) :
    escape_ddnet (a ++ b) = escape_ddnet a ++ escape_ddnet b := by
  simp [escape_ddnet, replaceChar_append]

/-- The per-character form of the composed escaping passes. -/
def escTok (c : Char) : List Char :=
  if c = '\\' then ['\\', '\\']
  else if c = '"' then ['\\', '"']
  else if c = '\n' then []
  else if c = '\r' then []
  else [c]

theorem escape_ddnet_singleton (c : Char) : escape_ddnet [c] = escTok c := by
  by_cases h1 : c = '\\'
  · subst h1; rfl
  by_cases h2 : c = '"'
  · subst h2; rfl
  by_cases h3 : c = '\n'
  · subst h3; rfl
  by_cases h4 : c = '\r'
  · subst h4; rfl
  simp [escape_ddnet, replaceChar, escTok, h1, h2, h3, h4]

theorem escape_ddnet_cons (c : Char) (s : List Char) :
    escape_ddnet (c :: s) = escTok c ++ escape_ddnet s := by
  calc escape_ddnet (c :: s) = escape_ddnet ([c] ++ s) := rfl
    _ = escape_ddnet [c] ++ escape_ddnet s := escape_ddnet_append [c] s
    _ = escTok c ++ escape_ddnet s := by rw [escape_ddnet_singleton]

theorem escTok_no_crlf (c : Char) : '\n' ∉ escTok c ∧ '\r' ∉ escTok c := by
  unfold escTok
  split_ifs with h1 h2 h3 h4
  · exact ⟨by decide, by decide⟩
  · exact ⟨by decide, by decide⟩
  · exact ⟨by simp, by simp⟩
  · exact ⟨by simp, by simp⟩
  · constructor
    · simp only [List.mem_singleton]
      exact fun h => h3 h.symm
    · simp only [List.mem_singleton]
      exact fun h => h4 h.symm

theorem escape_no_crlf (s : List Char) :
    '\n' ∉ escape_ddnet s ∧ '\r' ∉ escape_ddnet s := by
  induction s with
  | nil => exact ⟨by simp [escape_ddnet, replaceChar], by simp [escape_ddnet, replaceChar]⟩
  | cons c s ih =>
    rw [escape_ddnet_cons]
    constructor
    · intro h
      rcases List.mem_append.mp h with h | h
      · exact (escTok_no_crlf c).1 h
      · exact ih.1 h
    · intro h
      rcases List.mem_append.mp h with h | h
      · exact (escTok_no_crlf c).2 h
      · exact ih.2 h

theorem unescape_cons_backslash (c : Char) (t : List Char) :
    unescape_ddnet ('\\' :: c :: t) = c :: unescape_ddnet t := by
  simp [unescape_ddnet]

theorem unescape_cons_other {c : Char} (h : c ≠ '\\') (d : Char) (t : List Char) :
    unescape_ddnet (c :: d :: t) = c :: unescape_ddnet (d :: t) := by
  simp [unescape_ddnet, h]

theorem stripCRLF_cons_keep {c : Char} (h3 : c ≠ '\n') (h4 : c ≠ '\r') (s : List Char) :
    stripCRLF (c :: s) = c :: stripCRLF s := by
  simp [stripCRLF, List.filter_cons, h3, h4]

theorem unescape_escape (s : List Char) :
    unescape_ddnet (escape_ddnet s) = stripCRLF s := by
  induction s with
  | nil => rfl
  | cons c s ih =>
    rw [escape_ddnet_cons]
    by_cases h1 : c = '\\'
    · subst h1
      rw [show escTok '\\' = ['\\', '\\'] from rfl, List.cons_append, List.cons_append,
        List.nil_append, unescape_cons_backslash, ih,
        stripCRLF_cons_keep (by decide) (by decide)]
    · by_cases h2 : c = '"'
      · subst h2
        rw [show escTok '"' = ['\\', '"'] from rfl, List.cons_append, List.cons_append,
          List.nil_append, unescape_cons_backslash, ih,
          stripCRLF_cons_keep (by decide) (by decide)]
      · by_cases h3 : c = '\n'
        · subst h3
          rw [show escTok '\n' = [] from rfl, List.nil_append, ih]
          rfl
        · by_cases h4 : c = '\r'
          · subst h4
            rw [show escTok '\r' = [] from rfl, List.nil_append, ih]
            rfl
          · have htok : escTok c = [c] := by simp [escTok, h1, h2, h3, h4]
            rw [htok, stripCRLF_cons_keep h3 h4]
            rcases hE : escape_ddnet s with _ | ⟨d, rest⟩
            · rw [hE] at ih
              rw [List.append_nil, show unescape_ddnet [c] = [c] from rfl, ← ih]
              rfl
            · rw [hE] at ih
              rw [List.singleton_append, unescape_cons_other h1, ih]

/-- C2: the escaping function's output never contains a raw CR or LF, and
unescaping by the target line format (undoing backslash-doubling and
quote-escaping) recovers the original text with its CR/LF characters
stripped — the transformation doubles backslashes, backslash-escapes double
quotes, and strips CR and LF. -/
theorem c2_escape_contract :
    ∀ s : List Char,
      ('\n' ∉ escape_ddnet s ∧ '\r' ∉ escape_ddnet s) ∧
        unescape_ddnet (escape_ddnet s) = stripCRLF s :=
  fun s => ⟨escape_no_crlf s, unescape_escape s⟩

/-! Registry and allocator lemmas -/

theorem regLookup_none_not_mem {reg : Registry} {id : Uuid}
    (h : regLookup reg id = none) : id ∉ reg.map Prod.fst := by
  induction reg with
  | nil => simp
  | cons e rest ih =>
    rcases e with ⟨k, p⟩
    simp only [regLookup] at h
    by_cases hk : k = id
    · rw [if_pos hk] at h
      exact absurd h (by simp)
    · rw [if_neg hk] at h
      simp only [List.map_cons, List.mem_cons]
      rintro (h1 | h1)
      · exact hk h1.symm
      · exact ih h h1

theorem regSetMapPath_keys (reg : Registry) (id : Uuid) (mp : String) :
    (regSetMapPath reg id mp).map Prod.fst = reg.map Prod.fst := by
  simp only [regSetMapPath, List.map_map]
  congr 1
  funext e
  by_cases hk : e.1 = id <;> simp [Function.comp, hk]

theorem regSetMapPath_ports (reg : Registry) (id : Uuid) (mp : String) :
    regPorts (regSetMapPath reg id mp) = regPorts reg := by
  simp only [regPorts, regSetMapPath, List.map_map]
  congr 1
  funext e
  by_cases hk : e.1 = id <;> simp [Function.comp, hk]

theorem allocatePort_bounds {lo hi : Nat} {occ : List Nat} {p : Nat}
    (h : allocatePort lo hi occ = some p) : lo ≤ p ∧ p ≤ hi := by
  have hm := List.mem_of_find?_eq_some h
  rw [List.mem_range'_1] at hm
  omega

theorem allocatePort_not_occupied {lo hi : Nat} {occ : List Nat} {p : Nat}
    (h : allocatePort lo hi occ = some p) : p ∉ occ := by
  have hp := List.find?_some h
  simpa using hp

theorem find?_range'_min {occ : List Nat} :
    ∀ (n lo p : Nat),
      (List.range' lo n).find? (fun x => !occ.contains x) = some p →
      ∀ q, lo ≤ q → q < p → q ∈ occ := by
  intro n
  induction n with
  | zero =>
    intro lo p h
    simp [List.range'] at h
  | succ n ih =>
    intro lo p h q hq1 hq2
    rw [show List.range' lo (n + 1) = lo :: List.range' (lo + 1) n from rfl] at h
    by_cases hc : lo ∈ occ
    · rw [List.find?_cons_of_neg _ (by simp [hc])] at h
      rcases Nat.eq_or_lt_of_le hq1 with heq | hlt
      · subst heq
        exact hc
      · exact ih (lo + 1) p h q hlt hq2
    · rw [List.find?_cons_of_pos _ (by simp [hc])] at h
      have hp : p = lo := (Option.some_inj.mp h).symm
      omega

theorem allocatePort_lowest {lo hi : Nat} {occ : List Nat} {p : Nat}
    (h : allocatePort lo hi occ = some p) :
    ∀ q, lo ≤ q → q < p → q ∈ occ :=
  find?_range'_min (hi + 1 - lo) lo p h

theorem allocatePort_exhausted {lo hi : Nat} {occ : List Nat}
    (h : ∀ p, lo ≤ p → p ≤ hi → p ∈ occ) : allocatePort lo hi occ = none := by
  apply List.find?_eq_none.mpr
  intro x hx
  rw [List.mem_range'_1] at hx
  have := h x hx.1 (by omega)
  simp [this]

/-! Handshake lemmas -/

theorem handshake_no_marker {lines : List String} (e : StreamEnd)
    (h : ∀ l ∈ lines, containsMarker l = false) :
    handshake lines e = .error (startupErrorMsg e) := by
  induction lines with
  | nil => cases e <;> rfl
  | cons l ls ih =>
    have hl := h l (by simp)
    simp only [handshake, hl, Bool.false_eq_true, if_false]
    exact ih fun x hx => h x (by simp [hx])

/-! `update_map` branch lemmas -/

theorem update_map_invalid {config : Config} {data_dir : String} {reg : Registry}
    {query : UpdateMapQuery} {map_bytes : String} {env : SpawnEnv}
    (hbad : fileName query.map_filename = none ∨
      ∃ fn, fileName query.map_filename = some fn ∧ stripMapSuffix fn = none) :
    ∃ msg, update_map config data_dir reg query map_bytes env = (.error msg, reg, []) := by
  rcases hbad with hfn | ⟨fn, hfn, hmn⟩
  · refine ⟨"Not a valid filename", ?_⟩
    simp only [update_map, hfn]
  · refine ⟨"The filename must end with the .map extension", ?_⟩
    simp only [update_map, hfn, hmn]

theorem update_map_hot {config : Config} {data_dir : String} {reg : Registry}
    {query : UpdateMapQuery} {map_bytes : String} {env : SpawnEnv}
    {fn mn : String} {process : ServerProcess}
    (hfn : fileName query.map_filename = some fn)
    (hmn : stripMapSuffix fn = some mn)
    (hlk : regLookup reg query.server_id = some process)
    (hmp : process.map_path = mapPathOf data_dir query.server_id fn) :
    update_map config data_dir reg query map_bytes env =
      (.accepted, reg,
        [.writeFile (mapPathOf data_dir query.server_id fn) map_bytes,
         .sendCmd query.server_id "hot_reload\n"]) := by
  simp only [update_map, hfn, hmn, hlk, hmp, if_true]

theorem update_map_switch {config : Config} {data_dir : String} {reg : Registry}
    {query : UpdateMapQuery} {map_bytes : String} {env : SpawnEnv}
    {fn mn : String} {process : ServerProcess}
    (hfn : fileName query.map_filename = some fn)
    (hmn : stripMapSuffix fn = some mn)
    (hlk : regLookup reg query.server_id = some process)
    (hmp : process.map_path ≠ mapPathOf data_dir query.server_id fn) :
    update_map config data_dir reg query map_bytes env =
      (.accepted, regSetMapPath reg query.server_id (mapPathOf data_dir query.server_id fn),
        [.writeFile (mapPathOf data_dir query.server_id fn) map_bytes,
         .sendCmd query.server_id ("change_map \"" ++ escapeString mn ++ "\"\n"),
         .removeFile process.map_path]) := by
  simp only [update_map, hfn, hmn, hlk, hmp, if_false]

theorem update_map_noport {config : Config} {data_dir : String} {reg : Registry}
    {query : UpdateMapQuery} {map_bytes : String} {env : SpawnEnv} {fn mn : String}
    (hfn : fileName query.map_filename = some fn)
    (hmn : stripMapSuffix fn = some mn)
    (hlk : regLookup reg query.server_id = none)
    (hap : allocatePort config.port_range.1 config.port_range.2 (regPorts reg) = none) :
    update_map config data_dir reg query map_bytes env =
      (.error "Could not start the server because all ports are occupied", reg, []) := by
  simp only [update_map, hfn, hmn, hlk, hap]

theorem update_map_hsfail {config : Config} {data_dir : String} {reg : Registry}
    {query : UpdateMapQuery} {map_bytes : String} {env : SpawnEnv}
    {fn mn : String} {port : Nat} {msg : String}
    (hfn : fileName query.map_filename = some fn)
    (hmn : stripMapSuffix fn = some mn)
    (hlk : regLookup reg query.server_id = none)
    (hap : allocatePort config.port_range.1 config.port_range.2 (regPorts reg) = some port)
    (hhs : handshake env.lines env.ending = .error msg) :
    update_map config data_dir reg query map_bytes env =
      (.error msg, reg,
        launchEffects config data_dir query map_bytes mn fn port) := by
  simp only [update_map, hfn, hmn, hlk, hap, hhs]

theorem update_map_success {config : Config} {data_dir : String} {reg : Registry}
    {query : UpdateMapQuery} {map_bytes : String} {env : SpawnEnv}
    {fn mn : String} {port : Nat}
    (hfn : fileName query.map_filename = some fn)
    (hmn : stripMapSuffix fn = some mn)
    (hlk : regLookup reg query.server_id = none)
    (hap : allocatePort config.port_range.1 config.port_range.2 (regPorts reg) = some port)
    (hhs : handshake env.lines env.ending = .ok ()) :
    update_map config data_dir reg query map_bytes env =
      (.created,
       (query.server_id,
         ⟨serverPathOf data_dir query.server_id,
          mapPathOf data_dir query.server_id fn, port⟩) :: reg,
       launchEffects config data_dir query map_bytes mn fn port ++
         connectEffects config query port) := by
  simp only [update_map, hfn, hmn, hlk, hap, hhs]

/-! The Registry invariant and port uniqueness (C1, C4) -/

theorem regPorts_cons (e : Uuid × ServerProcess) (reg : Registry) :
    regPorts (e :: reg) = e.2.port :: regPorts reg := rfl

theorem regInv_update_map (config : Config) (data_dir : String) (reg : Registry)
    (query : UpdateMapQuery) (map_bytes : String) (env : SpawnEnv)
    (h : RegInv reg) :
    RegInv (update_map config data_dir reg query map_bytes env).2.1 := by
  cases hfn : fileName query.map_filename with
  | none => simpa only [update_map, hfn] using h
  | some fn =>
    cases hmn : stripMapSuffix fn with
    | none => simpa only [update_map, hfn, hmn] using h
    | some mn =>
      cases hlk : regLookup reg query.server_id with
      | some process =>
        by_cases hmp : process.map_path = mapPathOf data_dir query.server_id fn
        · rw [update_map_hot hfn hmn hlk hmp]
          exact h
        · rw [update_map_switch hfn hmn hlk hmp]
          refine ⟨?_, ?_⟩
          · rw [regSetMapPath_keys]
            exact h.1
          · rw [regSetMapPath_ports]
            exact h.2
      | none =>
        cases hap : allocatePort config.port_range.1 config.port_range.2 (regPorts reg) with
        | none =>
          rw [update_map_noport hfn hmn hlk hap]
          exact h
        | some port =>
          cases hhs : handshake env.lines env.ending with
          | error msg =>
            rw [update_map_hsfail hfn hmn hlk hap hhs]
            exact h
          | ok u =>
            cases u
            rw [update_map_success hfn hmn hlk hap hhs]
            refine ⟨?_, ?_⟩
            · rw [List.map_cons]
              exact List.nodup_cons.mpr ⟨regLookup_none_not_mem hlk, h.1⟩
            · rw [regPorts_cons]
              exact List.nodup_cons.mpr ⟨allocatePort_not_occupied hap, h.2⟩

theorem regInv_reap (reg : Registry) (id : Uuid) (server_path : String)
    (h : RegInv reg) : RegInv (reaperBody reg id server_path).1 := by
  cases hlk : regLookup reg id with
  | some p =>
    simp only [reaperBody, hlk]
    exact ⟨List.Nodup.sublist (List.Sublist.map _ (List.filter_sublist _)) h.1,
           List.Nodup.sublist (List.Sublist.map _ (List.filter_sublist _)) h.2⟩
  | none => simpa only [reaperBody, hlk] using h

theorem regInv_step {reg reg' : Registry} (hs : Step reg reg') (h : RegInv reg) :
    RegInv reg' := by
  cases hs with
  | updateMap config data_dir query map_bytes env =>
    exact regInv_update_map config data_dir reg query map_bytes env h
  | reap id server_path =>
    exact regInv_reap reg id server_path h

theorem regInv_reachable {reg : Registry} (h : Reachable reg) : RegInv reg := by
  induction h with
  | init => exact ⟨List.nodup_nil, List.nodup_nil⟩
  | step hr hs ih => exact regInv_step hs ih

/-- C1: in every reachable Registry state, any two distinct instances have
different ports — the creation path inserts only a port absent from the
occupied set (`allocatePort`), the update path and all other operations
never change a port, and removal only shrinks the registry. -/
theorem c1_port_uniqueness {reg : Registry} (h : Reachable reg) :
    reg.Pairwise fun a b => a.2.port ≠ b.2.port :=
  List.pairwise_map.mp (regInv_reachable h).2

/-- Witness for C1 at a concrete reachable state: two instances created from
the empty registry (ports 8303 and 8304). -/
theorem c1_witness :
    ((update_map exConfig "data"
        (update_map exConfig "data" [] ⟨1, "foo.map", "n", "p"⟩ "A" exEnvOk).2.1
        ⟨2, "bar.map", "n", "p"⟩ "B" exEnvOk).2.1).Pairwise
      (fun a b => a.2.port ≠ b.2.port) :=
  c1_port_uniqueness
    (Reachable.step
      (Reachable.step Reachable.init
        (Step.updateMap exConfig "data" ⟨1, "foo.map", "n", "p"⟩ "A" exEnvOk []))
      (Step.updateMap exConfig "data" ⟨2, "bar.map", "n", "p"⟩ "B" exEnvOk _))

/-- C4: the port allocator returns the lowest free port of the inclusive
configured range, and when every port of the range is occupied the creation
path fails with the resource-exhaustion error, spawns nothing, and leaves
the Registry unchanged. -/
theorem c4_port_allocation :
    (∀ lo hi occupied p, allocatePort lo hi occupied = some p →
      (lo ≤ p ∧ p ≤ hi) ∧ p ∉ occupied ∧ ∀ q, lo ≤ q → q < p → q ∈ occupied) ∧
    (∀ (config : Config) (data_dir : String) (reg : Registry) (query : UpdateMapQuery)
        (map_bytes : String) (env : SpawnEnv) (fn mn : String),
      fileName query.map_filename = some fn →
      stripMapSuffix fn = some mn →
      regLookup reg query.server_id = none →
      (∀ p, config.port_range.1 ≤ p → p ≤ config.port_range.2 → p ∈ regPorts reg) →
      update_map config data_dir reg query map_bytes env =
        (.error "Could not start the server because all ports are occupied", reg, [])) := by
  constructor
  · intro lo hi occupied p h
    exact ⟨allocatePort_bounds h, allocatePort_not_occupied h, allocatePort_lowest h⟩
  · intro config data_dir reg query map_bytes env fn mn hfn hmn hlk hfull
    exact update_map_noport hfn hmn hlk (allocatePort_exhausted hfull)

/-- Witness for C4: a two-port range allocates its lowest port when free,
and a creation against a registry occupying the whole range of
`exConfigTiny` fails with the registry and effect list untouched. -/
theorem c4_witness :
    ((8303 ≤ 8303 ∧ 8303 ≤ 8304) ∧ 8303 ∉ ([8304] : List Nat) ∧
      ∀ q, 8303 ≤ q → q < 8303 → q ∈ ([8304] : List Nat)) ∧
    update_map ⟨"/usr/bin/ddnet-sv", (8303, 8303), "example.org"⟩ "data"
        [(1, ⟨"data/1", "data/1/maps/a.map", 8303⟩)]
        ⟨2, "b.map", "n", "p"⟩ "B" exEnvOk =
      (.error "Could not start the server because all ports are occupied",
        [(1, ⟨"data/1", "data/1/maps/a.map", 8303⟩)], []) :=
  ⟨c4_port_allocation.1 8303 8304 [8304] 8303 (by decide),
   c4_port_allocation.2 ⟨"/usr/bin/ddnet-sv", (8303, 8303), "example.org"⟩ "data"
     [(1, ⟨"data/1", "data/1/maps/a.map", 8303⟩)] ⟨2, "b.map", "n", "p"⟩ "B" exEnvOk
     "b.map" "b" (by decide) (by decide) (by decide)
     (by
       intro p h1 h2
       change 8303 ≤ p at h1
       change p ≤ 8303 at h2
       have hp : p = 8303 := by omega
       subst hp
       decide)⟩

/-! Filename validation (C3) -/

/-- C3 counterexample: the path-traversal filename `"../evil.map"` is NOT
rejected.  `Path::file_name()` strips the directory components, the request
is accepted as a creation with sanitized filename `evil.map`, the registry
changes, and the external process is spawned — contradicting the claim that
any filename containing path-traversal or directory components is rejected
synchronously with no state change and no process spawned. -/
theorem c3_counterexample :
    fileName "../evil.map" = some "evil.map" ∧
    (update_map exConfig "data" [] ⟨7, "../evil.map", "n", "p"⟩ "MAP" exEnvOk).1 =
      .created ∧
    (update_map exConfig "data" [] ⟨7, "../evil.map", "n", "p"⟩ "MAP" exEnvOk).2.1 =
      [(7, ⟨"data/7", "data/7/maps/evil.map", 8303⟩)] ∧
    .spawnProcess exConfig.executable_path "data/7" ∈
      (update_map exConfig "data" [] ⟨7, "../evil.map", "n", "p"⟩ "MAP" exEnvOk).2.2 := by
  refine ⟨by decide, ?_, ?_, ?_⟩ <;> decide

/-- C3 (amended): the map filename is sanitized to its final path component
rather than rejected when it contains directory or traversal components; the
request is rejected synchronously — with no state change and no effect (in
particular no process spawned), and the error reported to the caller — when
the filename has no final normal component (e.g. it is empty or ends in
`..`) or its final component does not end in `.map`. -/
theorem c3_validation_rejects
    (config : Config) (data_dir : String) (reg : Registry) (query : UpdateMapQuery)
    (map_bytes : String) (env : SpawnEnv)
    (hbad : fileName query.map_filename = none ∨
      ∃ fn, fileName query.map_filename = some fn ∧ stripMapSuffix fn = none) :
    ∃ msg, update_map config data_dir reg query map_bytes env =
      (.error msg, reg, []) :=
  update_map_invalid hbad

/-- Witness for C3 (amended): a filename ending in `..` is rejected with the
registry and effect list untouched. -/
theorem c3_witness :
    ∃ msg, update_map exConfig "data" [] ⟨7, "maps/..", "n", "p"⟩ "MAP" exEnvOk =
      (.error msg, [], []) :=
  c3_validation_rejects exConfig "data" [] ⟨7, "maps/..", "n", "p"⟩ "MAP" exEnvOk
    (Or.inl (by decide))

/-! Updating an existing instance (C5) -/

/-- C5: for a createOrUpdate request whose instance is already registered,
the map bytes are written to the resolved path in both cases and the
response is Accepted; when the resolved path equals the tracked map path a
`hot_reload` command is sent and the registry (hence the tracked path) is
unchanged with no file deletion; when it differs, a `change_map` command
naming the new map is sent, the previously tracked map file is deleted, and
the tracked map path is updated to the new file. -/
theorem c5_existing_instance
    (config : Config) (data_dir : String) (reg : Registry) (query : UpdateMapQuery)
    (map_bytes : String) (env : SpawnEnv) (fn mn : String) (process : ServerProcess)
    (hfn : fileName query.map_filename = some fn)
    (hmn : stripMapSuffix fn = some mn)
    (hlk : regLookup reg query.server_id = some process) :
    (process.map_path = mapPathOf data_dir query.server_id fn →
      update_map config data_dir reg query map_bytes env =
        (.accepted, reg,
          [.writeFile (mapPathOf data_dir query.server_id fn) map_bytes,
           .sendCmd query.server_id "hot_reload\n"])) ∧
    (process.map_path ≠ mapPathOf data_dir query.server_id fn →
      update_map config data_dir reg query map_bytes env =
        (.accepted,
          regSetMapPath reg query.server_id (mapPathOf data_dir query.server_id fn),
          [.writeFile (mapPathOf data_dir query.server_id fn) map_bytes,
           .sendCmd query.server_id ("change_map \"" ++ escapeString mn ++ "\"\n"),
           .removeFile process.map_path])) :=
  ⟨fun hmp => update_map_hot hfn hmn hlk hmp,
   fun hmp => update_map_switch hfn hmn hlk hmp⟩

/-- Witness for C5: a concrete registered instance, re-uploading the same
resolved filename (hot reload) and a different one (map switch). -/
theorem c5_witness :
    update_map exConfig "data" [(5, ⟨"data/5", "data/5/maps/foo.map", 8303⟩)]
        ⟨5, "foo.map", "n", "p"⟩ "A" exEnvOk =
      (.accepted, [(5, ⟨"data/5", "data/5/maps/foo.map", 8303⟩)],
        [.writeFile (mapPathOf "data" 5 "foo.map") "A",
         .sendCmd 5 "hot_reload\n"]) ∧
    update_map exConfig "data" [(5, ⟨"data/5", "data/5/maps/foo.map", 8303⟩)]
        ⟨5, "bar.map", "n", "p"⟩ "B" exEnvOk =
      (.accepted, regSetMapPath [(5, ⟨"data/5", "data/5/maps/foo.map", 8303⟩)] 5
          (mapPathOf "data" 5 "bar.map"),
        [.writeFile (mapPathOf "data" 5 "bar.map") "B",
         .sendCmd 5 ("change_map \"" ++ escapeString "bar" ++ "\"\n"),
         .removeFile "data/5/maps/foo.map"]) :=
  ⟨(c5_existing_instance exConfig "data" [(5, ⟨"data/5", "data/5/maps/foo.map", 8303⟩)]
      ⟨5, "foo.map", "n", "p"⟩ "A" exEnvOk "foo.map" "foo" ⟨"data/5", "data/5/maps/foo.map", 8303⟩
      (by decide) (by decide) (by decide)).1 (by decide),
   (c5_existing_instance exConfig "data" [(5, ⟨"data/5", "data/5/maps/foo.map", 8303⟩)]
      ⟨5, "bar.map", "n", "p"⟩ "B" exEnvOk "bar.map" "bar" ⟨"data/5", "data/5/maps/foo.map", 8303⟩
      (by decide) (by decide) (by decide)).2 (by decide)⟩

/-! Readiness-handshake failure (C6) -/

/-- C6: when no line readable before the one-second deadline contains the
readiness marker — whether because the deadline elapses or because the
child's stdout ends first — the creation request returns the corresponding
process-startup error to the caller, the effects stop at the spawn (no
administration connect, no event, no timer), and the instance is never
inserted into the Registry. -/
theorem c6_startup_failure
    (config : Config) (data_dir : String) (reg : Registry) (query : UpdateMapQuery)
    (map_bytes : String) (env : SpawnEnv) (fn mn : String) (port : Nat)
    (hfn : fileName query.map_filename = some fn)
    (hmn : stripMapSuffix fn = some mn)
    (hlk : regLookup reg query.server_id = none)
    (hap : allocatePort config.port_range.1 config.port_range.2 (regPorts reg) = some port)
    (hmark : ∀ l ∈ env.lines, containsMarker l = false) :
    update_map config data_dir reg query map_bytes env =
      (.error (startupErrorMsg env.ending), reg,
        launchEffects config data_dir query map_bytes mn fn port) ∧
    regLookup (update_map config data_dir reg query map_bytes env).2.1
      query.server_id = none := by
  have heq := @update_map_hsfail config data_dir reg query map_bytes env fn mn port
    (startupErrorMsg env.ending) hfn hmn hlk hap (handshake_no_marker env.ending hmark)
  exact ⟨heq, by rw [heq]; exact hlk⟩

/-- Witness for C6: a creation whose child prints no marker before the
deadline, and one whose child exits first — both fail with the matching
startup error and an unchanged empty registry. -/
theorem c6_witness :
    (update_map exConfig "data" [] ⟨3, "foo.map", "n", "p"⟩ "M" exEnvFail =
      (.error (startupErrorMsg .deadline), [],
        launchEffects exConfig "data" ⟨3, "foo.map", "n", "p"⟩ "M" "foo" "foo.map" 8303) ∧
     regLookup (update_map exConfig "data" [] ⟨3, "foo.map", "n", "p"⟩ "M" exEnvFail).2.1
       3 = none) ∧
    (update_map exConfig "data" [] ⟨3, "foo.map", "n", "p"⟩ "M" exEnvExit =
      (.error (startupErrorMsg .eof), [],
        launchEffects exConfig "data" ⟨3, "foo.map", "n", "p"⟩ "M" "foo" "foo.map" 8303) ∧
     regLookup (update_map exConfig "data" [] ⟨3, "foo.map", "n", "p"⟩ "M" exEnvExit).2.1
       3 = none) :=
  ⟨c6_startup_failure exConfig "data" [] ⟨3, "foo.map", "n", "p"⟩ "M" exEnvFail
     "foo.map" "foo" 8303 (by decide) (by decide) (by decide) (by decide)
     (by intro l hl; fin_cases hl; decide),
   c6_startup_failure exConfig "data" [] ⟨3, "foo.map", "n", "p"⟩ "M" exEnvExit
     "foo.map" "foo" 8303 (by decide) (by decide) (by decide) (by decide)
     (by intro l hl; simp [exEnvExit] at hl)⟩

/-! Idle-timeout scheduler (C7): trace-level accounting over the
task-level model -/

theorem countEffect_append (a b : List Effect) (e : Effect) :
    countEffect (a ++ b) e = countEffect a e + countEffect b e := by
  simp [countEffect, List.filter_append]

theorem listStartsWith_append (p r : List Char) :
    listStartsWith p (p ++ r) = true := by
  induction p with
  | nil => rfl
  | cons c cs ih => simp [listStartsWith, ih]

theorem string_ne_of_prefix_mismatch (a : String) {s t : String}
    (hpre : listStartsWith a.data s.data = true)
    (hnot : listStartsWith a.data t.data = false) : s ≠ t := by
  intro he
  rw [he, hnot] at hpre
  exact absurd hpre (by decide)

theorem changeMap_ne_shutdown (x : String) :
    ("change_map \"" ++ x ++ "\"\n" : String) ≠ "sv_shutdown_when_empty 1\n" := by
  refine string_ne_of_prefix_mismatch "change_map \"" ?_ (by decide)
  simp only [String.data_append, List.append_assoc]
  exact listStartsWith_append _ _

theorem settings_cmd_ne (x y : String) :
    ("sv_name \"" ++ x ++ "\"\n" ++ "password \"" ++ y ++ "\"\n" : String) ≠
      "sv_shutdown_when_empty 1\n" := by
  refine string_ne_of_prefix_mismatch "sv_name \"" ?_ (by decide)
  simp only [String.data_append, List.append_assoc]
  exact listStartsWith_append _ _

theorem fired_singleton_length (t : TimerTask) (b : Bool) (id : Uuid) :
    (List.filter (fun f => f.task.id == id && f.present)
      [(⟨t, b⟩ : TimerFiring)]).length = if (t.id == id) && b then 1 else 0 := by
  by_cases h : (t.id == id) && b <;> simp [List.filter_cons, h]

theorem update_map_count_zero (config : Config) (data_dir : String) (reg : Registry)
    (query : UpdateMapQuery) (map_bytes : String) (env : SpawnEnv) (id : Uuid) :
    countEffect (update_map config data_dir reg query map_bytes env).2.2
      (.sendCmd id "sv_shutdown_when_empty 1\n") = 0 ∧
    countEffect (update_map config data_dir reg query map_bytes env).2.2
      (.publish ⟨id, "shutdownwhenempty", ""⟩) = 0 := by
  cases hfn : fileName query.map_filename with
  | none => simp [update_map, hfn, countEffect]
  | some fn =>
    cases hmn : stripMapSuffix fn with
    | none => simp [update_map, hfn, hmn, countEffect]
    | some mn =>
      cases hlk : regLookup reg query.server_id with
      | some process =>
        by_cases hmp : process.map_path = mapPathOf data_dir query.server_id fn
        · rw [update_map_hot hfn hmn hlk hmp]
          simp [countEffect, List.filter_cons]
        · rw [update_map_switch hfn hmn hlk hmp]
          simp [countEffect, List.filter_cons, changeMap_ne_shutdown]
      | none =>
        cases hap : allocatePort config.port_range.1 config.port_range.2 (regPorts reg) with
        | none =>
          rw [update_map_noport hfn hmn hlk hap]
          exact ⟨rfl, rfl⟩
        | some port =>
          cases hhs : handshake env.lines env.ending with
          | error msg =>
            rw [update_map_hsfail hfn hmn hlk hap hhs]
            simp [launchEffects, countEffect, List.filter_cons]
          | ok u =>
            cases u
            rw [update_map_success hfn hmn hlk hap hhs]
            simp [launchEffects, connectEffects, countEffect, List.filter_cons]

theorem update_map_count_cmd (config : Config) (data_dir : String) (reg : Registry)
    (query : UpdateMapQuery) (map_bytes : String) (env : SpawnEnv) (id : Uuid) :
    countEffect (update_map config data_dir reg query map_bytes env).2.2
      (.sendCmd id "sv_shutdown_when_empty 1\n") = 0 :=
  (update_map_count_zero config data_dir reg query map_bytes env id).1

theorem update_map_count_event (config : Config) (data_dir : String) (reg : Registry)
    (query : UpdateMapQuery) (map_bytes : String) (env : SpawnEnv) (id : Uuid) :
    countEffect (update_map config data_dir reg query map_bytes env).2.2
      (.publish ⟨id, "shutdownwhenempty", ""⟩) = 0 :=
  (update_map_count_zero config data_dir reg query map_bytes env id).2

theorem update_settings_count_cmd (reg : Registry) (sid : Uuid)
    (server_name server_password : String) (id : Uuid) :
    countEffect (update_settings reg sid server_name server_password).2
      (.sendCmd id "sv_shutdown_when_empty 1\n") = 0 := by
  cases hlk : regLookup reg sid <;>
    simp [update_settings, hlk, countEffect, List.filter_cons, settings_cmd_ne]

theorem update_settings_count_event (reg : Registry) (sid : Uuid)
    (server_name server_password : String) (id : Uuid) :
    countEffect (update_settings reg sid server_name server_password).2
      (.publish ⟨id, "shutdownwhenempty", ""⟩) = 0 := by
  cases hlk : regLookup reg sid <;>
    simp [update_settings, hlk, countEffect, List.filter_cons]

theorem reaperBody_count_cmd (reg : Registry) (rid : Uuid) (sp : String) (id : Uuid) :
    countEffect (reaperBody reg rid sp).2 (.sendCmd id "sv_shutdown_when_empty 1\n") = 0 := by
  cases ho : regLookup reg rid <;>
    simp [reaperBody, ho, countEffect, List.filter_cons]

theorem reaperBody_count_event (reg : Registry) (rid : Uuid) (sp : String) (id : Uuid) :
    countEffect (reaperBody reg rid sp).2 (.publish ⟨id, "shutdownwhenempty", ""⟩) = 0 := by
  cases ho : regLookup reg rid <;>
    simp [reaperBody, ho, countEffect, List.filter_cons]

theorem idleTimerBody_count_cmd (reg : Registry) (tid id : Uuid) :
    countEffect (idleTimerBody reg tid) (.sendCmd id "sv_shutdown_when_empty 1\n") =
      if (tid == id) && (regLookup reg tid).isSome then 1 else 0 := by
  cases ho : regLookup reg tid with
  | none => simp [idleTimerBody, ho, countEffect]
  | some p =>
    by_cases hid : tid = id
    · subst hid
      simp [idleTimerBody, ho, countEffect, List.filter_cons]
    · simp [idleTimerBody, ho, countEffect, List.filter_cons, hid]

theorem idleTimerBody_count_event (reg : Registry) (tid id : Uuid) :
    countEffect (idleTimerBody reg tid) (.publish ⟨id, "shutdownwhenempty", ""⟩) =
      if (tid == id) && (regLookup reg tid).isSome then 1 else 0 := by
  cases ho : regLookup reg tid with
  | none => simp [idleTimerBody, ho, countEffect]
  | some p =>
    by_cases hid : tid = id
    · subst hid
      simp [idleTimerBody, ho, countEffect, List.filter_cons]
    · simp [idleTimerBody, ho, countEffect, List.filter_cons, hid]

theorem sys_counts {s : Sys} (h : SysReachable s) (id : Uuid) :
    countEffect s.trace (.sendCmd id "sv_shutdown_when_empty 1\n") =
      (s.fired.filter fun f => f.task.id == id && f.present).length ∧
    countEffect s.trace (.publish ⟨id, "shutdownwhenempty", ""⟩) =
      (s.fired.filter fun f => f.task.id == id && f.present).length := by
  induction h with
  | init => exact ⟨rfl, rfl⟩
  | step hr hs ih =>
    cases hs with
    | request config data_dir query map_bytes env =>
      constructor
      · simp only [sysRequest, countEffect_append, update_map_count_cmd, Nat.add_zero]
        exact ih.1
      · simp only [sysRequest, countEffect_append, update_map_count_event, Nat.add_zero]
        exact ih.2
    | settings sid server_name server_password =>
      constructor
      · simp only [sysSettings, countEffect_append, update_settings_count_cmd, Nat.add_zero]
        exact ih.1
      · simp only [sysSettings, countEffect_append, update_settings_count_event, Nat.add_zero]
        exact ih.2
    | advance d => simpa only [sysAdvance] using ih
    | fireTimer t s hmem hdue =>
      constructor
      · simp only [sysFireTimer, countEffect_append, idleTimerBody_count_cmd,
          List.filter_append, List.length_append, fired_singleton_length, ih.1]
      · simp only [sysFireTimer, countEffect_append, idleTimerBody_count_event,
          List.filter_append, List.length_append, fired_singleton_length, ih.2]
    | fireReaper r s hmem =>
      constructor
      · simp only [sysFireReaper, countEffect_append, reaperBody_count_cmd, Nat.add_zero]
        exact ih.1
      · simp only [sysFireReaper, countEffect_append, reaperBody_count_event, Nat.add_zero]
        exact ih.2

theorem reachable_c7s9 : SysReachable c7s9 :=
  SysReachable.step
    (SysReachable.step
      (SysReachable.step
        (SysReachable.step
          (SysReachable.step
            (SysReachable.step
              (SysReachable.step
                (SysReachable.step
                  (SysReachable.step SysReachable.init
                    (SysStep.request exConfig "data" exQuery "M" exEnvOk initSys))
                  (SysStep.advance 10 c7s1))
                (SysStep.fireReaper ⟨0, 1, "data/1"⟩ c7s2 (by decide)))
              (SysStep.advance 10 c7s3))
            (SysStep.request exConfig "data" exQuery "M" exEnvOk c7s4))
          (SysStep.advance 40 c7s5))
        (SysStep.fireTimer ⟨1, 60⟩ c7s6 (by decide) (by decide)))
      (SysStep.advance 20 c7s7))
    (SysStep.fireTimer ⟨1, 80⟩ c7s8 (by decide) (by decide))

/-- C7 counterexample: in a reachable execution, instance id 1 is re-created
at time 20 and is still present at time 80 — 60 seconds after its creation,
with no removal in between (no `stopped` event in that segment) — yet by
then it has received TWO shutdown-when-empty commands and two events: its
predecessor's never-cancelled timer (spawned for the same id at time 0,
whose instance was removed at time 10) fired into it at time 60, and its own
timer at time 80.  This contradicts the claim's "exactly one" for a
still-present instance, and its "zero" for the removed first instance whose
timer nevertheless delivered a command keyed to its id. -/
theorem c7_counterexample :
    SysReachable c7s9 ∧
    c7s5.now = 20 ∧
    regLookup c7s5.reg 1 = some ⟨"data/1", "data/1/maps/foo.map", 8303⟩ ∧
    c7s9.now = 80 ∧
    regLookup c7s9.reg 1 = some ⟨"data/1", "data/1/maps/foo.map", 8303⟩ ∧
    countEffect (c7s9.trace.drop c7s5.trace.length) (.publish ⟨1, "stopped", ""⟩) = 0 ∧
    countEffect (c7s9.trace.drop c7s5.trace.length)
      (.sendCmd 1 "sv_shutdown_when_empty 1\n") = 2 ∧
    countEffect (c7s9.trace.drop c7s5.trace.length)
      (.publish ⟨1, "shutdownwhenempty", ""⟩) = 2 :=
  ⟨reachable_c7s9, by decide, by decide, by decide, by decide, by decide, by decide,
   by decide⟩

/-- C7 (amended): each successful creation schedules exactly one idle-timer
task, due 60 seconds after that creation, and in every reachable execution
the number of shutdown-when-empty commands sent to an id — likewise the
number of `shutdownwhenempty` events published for it — equals the number of
idle-timer firings for that id at whose moment an instance with the id was
present in the Registry (a firing with the id absent delivers nothing).
Timers are never cancelled and check only the id, so the claim's
one-per-instance accounting holds only when the id is not re-used within
the 60-second window. -/
theorem c7_timer_accounting :
    (∀ (s : Sys), SysReachable s → ∀ id : Uuid,
      countEffect s.trace (.sendCmd id "sv_shutdown_when_empty 1\n") =
        (s.fired.filter fun f => f.task.id == id && f.present).length ∧
      countEffect s.trace (.publish ⟨id, "shutdownwhenempty", ""⟩) =
        (s.fired.filter fun f => f.task.id == id && f.present).length) ∧
    (∀ (config : Config) (data_dir : String) (reg : Registry) (query : UpdateMapQuery)
        (map_bytes : String) (env : SpawnEnv) (fn mn : String) (port : Nat) (now : Nat),
      fileName query.map_filename = some fn →
      stripMapSuffix fn = some mn →
      regLookup reg query.server_id = none →
      allocatePort config.port_range.1 config.port_range.2 (regPorts reg) = some port →
      handshake env.lines env.ending = .ok () →
      spawnedTimers (update_map config data_dir reg query map_bytes env).2.2 now =
        [⟨query.server_id, now + 60⟩]) := by
  constructor
  · intro s h id
    exact sys_counts h id
  · intro config data_dir reg query map_bytes env fn mn port now hfn hmn hlk hap hhs
    rw [update_map_success hfn hmn hlk hap hhs]
    simp [launchEffects, connectEffects, spawnedTimers]

/-- Witness for C7 (amended) at the concrete execution `c7s9` (counts agree
with its two recorded present-firings) and at a concrete successful
creation (exactly one timer, due at 0 + 60). -/
theorem c7_witness :
    (countEffect c7s9.trace (.sendCmd 1 "sv_shutdown_when_empty 1\n") =
        (c7s9.fired.filter fun f => f.task.id == 1 && f.present).length ∧
     countEffect c7s9.trace (.publish ⟨1, "shutdownwhenempty", ""⟩) =
        (c7s9.fired.filter fun f => f.task.id == 1 && f.present).length) ∧
    spawnedTimers (update_map exConfig "data" [] exQuery "M" exEnvOk).2.2 0 =
      [⟨1, 60⟩] :=
  ⟨c7_timer_accounting.1 c7s9 reachable_c7s9 1,
   c7_timer_accounting.2 exConfig "data" [] exQuery "M" exEnvOk "foo.map" "foo" 8303 0
     (by decide) (by decide) (by decide) (by decide) rfl⟩

/-! Host shutdown (C8) -/

/-- C8: on a termination signal the handler walks the whole Registry once:
every active instance is sent the unconditional `shutdown` command and has
its directory deleted, and the orchestrator's own process exit comes last,
after all of those effects. -/
theorem c8_host_shutdown (reg : Registry) :
    ∃ pre, shutdownHandler reg = pre ++ [.exitProcess] ∧
      ∀ e ∈ reg, .sendCmd e.1 "shutdown\n" ∈ pre ∧
        .removeDirAll e.2.server_path ∈ pre := by
  refine ⟨reg.flatMap fun e => [.sendCmd e.1 "shutdown\n", .removeDirAll e.2.server_path],
    rfl, ?_⟩
  intro e he
  constructor
  · exact List.mem_flatMap.mpr ⟨e, he, by simp⟩
  · exact List.mem_flatMap.mpr ⟨e, he, by simp⟩

/-- Witness for C8 at a concrete two-instance registry. -/
theorem c8_witness :
    ∃ pre, shutdownHandler
        [(1, ⟨"data/1", "data/1/maps/a.map", 8303⟩),
         (2, ⟨"data/2", "data/2/maps/b.map", 8304⟩)] = pre ++ [.exitProcess] ∧
      ∀ e ∈ ([(1, ⟨"data/1", "data/1/maps/a.map", 8303⟩),
              (2, ⟨"data/2", "data/2/maps/b.map", 8304⟩)] : Registry),
        .sendCmd e.1 "shutdown\n" ∈ pre ∧ .removeDirAll e.2.server_path ∈ pre :=
  c8_host_shutdown
    [(1, ⟨"data/1", "data/1/maps/a.map", 8303⟩),
     (2, ⟨"data/2", "data/2/maps/b.map", 8304⟩)]

/-! Subscription stream (C9) -/

/-- C9: the first event delivered to a subscriber is the synthetic status
event computed from the Registry at subscription time — `online` with
`public_address:port` when the instance is present, `offline` when absent —
ahead of every subsequently published event; with no active instance and no
later publications for the id, the stream is exactly the one `offline`
event. -/
theorem c9_subscribe_status (config : Config) (reg : Registry) (id : Uuid)
    (published : List ServerEvent) :
    (server_events config reg id published).head? = some (statusMsg config reg id) ∧
    (∀ process, regLookup reg id = some process →
      statusMsg config reg id =
        ⟨"online", config.public_address ++ ":" ++ toString process.port⟩) ∧
    (regLookup reg id = none → statusMsg config reg id = ⟨"offline", ""⟩) ∧
    ((∀ ev ∈ published, ev.server_id ≠ id) →
      server_events config reg id published = [statusMsg config reg id]) := by
  refine ⟨rfl, ?_, ?_, ?_⟩
  · intro process hp
    simp only [statusMsg, hp]
  · intro hn
    simp only [statusMsg, hn]
  · intro hnone
    have hf : published.filter (fun m => m.server_id == id) = [] := by
      rw [List.filter_eq_nil_iff]
      intro ev hev
      simpa using hnone ev hev
    simp only [server_events, hf, List.map_nil]

/-- Witness for C9: subscribing to id 4 over a registry holding only id 1
yields exactly one `offline` event when nothing for id 4 is ever
published. -/
theorem c9_witness :
    (server_events exConfig [(1, ⟨"data/1", "data/1/maps/a.map", 8303⟩)] 4
        [⟨1, "stopped", ""⟩]).head? =
      some (statusMsg exConfig [(1, ⟨"data/1", "data/1/maps/a.map", 8303⟩)] 4) ∧
    statusMsg exConfig [(1, ⟨"data/1", "data/1/maps/a.map", 8303⟩)] 4 = ⟨"offline", ""⟩ ∧
    server_events exConfig [(1, ⟨"data/1", "data/1/maps/a.map", 8303⟩)] 4
        [⟨1, "stopped", ""⟩] =
      [statusMsg exConfig [(1, ⟨"data/1", "data/1/maps/a.map", 8303⟩)] 4] :=
  ⟨(c9_subscribe_status exConfig [(1, ⟨"data/1", "data/1/maps/a.map", 8303⟩)] 4
      [⟨1, "stopped", ""⟩]).1,
   (c9_subscribe_status exConfig [(1, ⟨"data/1", "data/1/maps/a.map", 8303⟩)] 4
      [⟨1, "stopped", ""⟩]).2.2.1 (by decide),
   (c9_subscribe_status exConfig [(1, ⟨"data/1", "data/1/maps/a.map", 8303⟩)] 4
      [⟨1, "stopped", ""⟩]).2.2.2 (by decide)⟩

/-! Exit reaper (C10) -/

theorem reachable_c10s3 : SysReachable c10s3 :=
  SysReachable.step
    (SysReachable.step
      (SysReachable.step SysReachable.init
        (SysStep.request exConfig "data" exQuery "M" exEnvFail initSys))
      (SysStep.request exConfig "data" exQuery "M" exEnvOk c10s1))
    (SysStep.fireReaper ⟨0, 1, "data/1"⟩ c10s2 (by decide))

/-- C10 counterexample: the creation of id 1 fails its readiness handshake
(startup error, nothing registered) but has already spawned its exit-reaper
task, serial 0.  A second creation of the same id then succeeds, and when
the first (stale) child exits, reaper serial 0 — the failed creation's
reaper (`c10s3` fires exactly that task) — finds the id present, publishes a
`stopped` event, and evicts the live re-created instance: the failed
creation does NOT publish "no event at all". -/
theorem c10_counterexample :
    (update_map exConfig "data" [] exQuery "M" exEnvFail).1 =
      .error (startupErrorMsg .deadline) ∧
    c10s1.reapers = [⟨0, 1, "data/1"⟩] ∧
    c10s1.reg = [] ∧
    regLookup c10s2.reg 1 = some ⟨"data/1", "data/1/maps/foo.map", 8303⟩ ∧
    SysReachable c10s3 ∧
    countEffect (c10s3.trace.drop c10s2.trace.length) (.publish ⟨1, "stopped", ""⟩) = 1 ∧
    regLookup c10s3.reg 1 = none :=
  ⟨by decide, by decide, by decide, by decide, reachable_c10s3, by decide, by decide⟩

/-- C10 (amended): when the child process exits, the reaper deletes the
instance directory regardless of registration; it publishes a `stopped`
event exactly when some instance with its id is present in the Registry at
that moment (removing that entry).  A creation whose readiness handshake
failed spawned the reaper but left the instance unregistered, and the
creation itself published nothing; its reaper publishes nothing provided
the id is still unregistered when the stale child exits — if the same id
was successfully re-created first, the stale reaper publishes `stopped` and
evicts the live instance. -/
theorem c10_exit_reaper :
    (∀ (reg : Registry) (id : Uuid) (server_path : String),
      .removeDirAll server_path ∈ (reaperBody reg id server_path).2 ∧
      ((regLookup reg id).isSome →
        (reaperBody reg id server_path).2 =
          [.publish ⟨id, "stopped", ""⟩, .removeDirAll server_path] ∧
        (reaperBody reg id server_path).1 = regRemove reg id) ∧
      (regLookup reg id = none →
        (reaperBody reg id server_path).2 = [.removeDirAll server_path] ∧
        ∀ ev, .publish ev ∉ (reaperBody reg id server_path).2)) ∧
    (∀ (config : Config) (data_dir : String) (reg : Registry) (query : UpdateMapQuery)
        (map_bytes : String) (env : SpawnEnv) (fn mn : String) (port : Nat),
      fileName query.map_filename = some fn →
      stripMapSuffix fn = some mn →
      regLookup reg query.server_id = none →
      allocatePort config.port_range.1 config.port_range.2 (regPorts reg) = some port →
      (∀ l ∈ env.lines, containsMarker l = false) →
      .spawnReaper query.server_id (serverPathOf data_dir query.server_id) ∈
        (update_map config data_dir reg query map_bytes env).2.2 ∧
      (update_map config data_dir reg query map_bytes env).2.1 = reg ∧
      ∀ ev, .publish ev ∉ (update_map config data_dir reg query map_bytes env).2.2) := by
  constructor
  · intro reg id server_path
    refine ⟨?_, ?_, ?_⟩
    · cases ho : regLookup reg id <;> simp [reaperBody, ho]
    · intro hs
      rcases ho : regLookup reg id with _ | p
      · rw [ho] at hs
        simp at hs
      · exact ⟨by simp only [reaperBody, ho], by simp only [reaperBody, ho]⟩
    · intro ho
      refine ⟨by simp only [reaperBody, ho], ?_⟩
      intro ev hmem
      simp only [reaperBody, ho] at hmem
      simp at hmem
  · intro config data_dir reg query map_bytes env fn mn port hfn hmn hlk hap hmark
    have heq := @update_map_hsfail config data_dir reg query map_bytes env fn mn port
      (startupErrorMsg env.ending) hfn hmn hlk hap (handshake_no_marker env.ending hmark)
    rw [heq]
    refine ⟨by simp [launchEffects], rfl, ?_⟩
    intro ev hmem
    simp [launchEffects] at hmem

/-- Witness for C10: the reaper's behaviour on a registry where the instance
is present and on one where it is absent, and a failed creation that spawned
the reaper, registered nothing, and published nothing. -/
theorem c10_witness :
    (.removeDirAll "data/6" ∈
      (reaperBody [(6, ⟨"data/6", "data/6/maps/m.map", 8303⟩)] 6 "data/6").2 ∧
     (reaperBody [(6, ⟨"data/6", "data/6/maps/m.map", 8303⟩)] 6 "data/6").2 =
       [.publish ⟨6, "stopped", ""⟩, .removeDirAll "data/6"] ∧
     (reaperBody ([] : Registry) 6 "data/6").2 = [.removeDirAll "data/6"]) ∧
    (.spawnReaper 3 (serverPathOf "data" 3) ∈
      (update_map exConfig "data" [] ⟨3, "foo.map", "n", "p"⟩ "M" exEnvFail).2.2 ∧
     (update_map exConfig "data" [] ⟨3, "foo.map", "n", "p"⟩ "M" exEnvFail).2.1 = [] ∧
     ∀ ev, .publish ev ∉
       (update_map exConfig "data" [] ⟨3, "foo.map", "n", "p"⟩ "M" exEnvFail).2.2) :=
  ⟨⟨(c10_exit_reaper.1 [(6, ⟨"data/6", "data/6/maps/m.map", 8303⟩)] 6 "data/6").1,
    ((c10_exit_reaper.1 [(6, ⟨"data/6", "data/6/maps/m.map", 8303⟩)] 6 "data/6").2.1
      (by decide)).1,
    ((c10_exit_reaper.1 ([] : Registry) 6 "data/6").2.2 rfl).1⟩,
   c10_exit_reaper.2 exConfig "data" [] ⟨3, "foo.map", "n", "p"⟩ "M" exEnvFail
     "foo.map" "foo" 8303 (by decide) (by decide) (by decide) (by decide)
     (by intro l hl; fin_cases hl; decide)⟩

end Trashmap
